import Mathlib

/-!
Verification of the backend-profile server (src/server.js): a shallow
embedding in Lean 4 of its data model, the four request handlers
(list profiles, register, login, add profile), the multer upload
filter and the image materialization function, together with theorems
settling the specification claims about them.

Request bodies are JSON objects whose string fields may be absent, so
each field is embedded as `Option String`; JavaScript truthiness on a
string field (`!field`) is false exactly when the field is absent or
the empty string. Byte buffers are embedded as `List Nat` (each entry
a byte value). MongoDB object ids are embedded as `Nat`. The store is
embedded as the list of saved documents in insertion order, and each
handler returns its response together with the updated store and, for
register, the list of storage operations it performed.
-/

set_option autoImplicit false

namespace BackendProfile

/-- JavaScript truthiness of a possibly-absent string field of a JSON
body: `undefined` and the empty string are falsy, every other string
is truthy. -/
def truthy : Option String → Bool
  | none => false
  | some s => s != ""

/-- The characters ECMAScript's backslash-s character class matches:
the WhiteSpace production (tab, vertical tab, form feed, space,
no-break space, the Unicode space separators, the byte order mark)
together with the LineTerminator production (line feed, carriage
return, line separator, paragraph separator). -/
def jsWhitespace (c : Char) : Bool :=
  let n := c.toNat
  n == 0x9 || n == 0xa || n == 0xb || n == 0xc || n == 0xd || n == 0x20
    || n == 0xa0 || n == 0x1680
    || (decide (0x2000 ≤ n) && decide (n ≤ 0x200a))
    || n == 0x2028 || n == 0x2029 || n == 0x202f
    || n == 0x205f || n == 0x3000 || n == 0xfeff

/-- A character admitted by the character class of the email regular
expression in the register handler: anything that is not
whitespace and not the at-sign. -/
def isEmailChar (c : Char) : Bool :=
  !(jsWhitespace c) && c != '@'

/-- Whether every character of a list is admitted by the email
character class. -/
def allEmailChars (l : List Char) : Bool :=
  l.all isEmailChar

/-- Whether a domain part matches the second half of the email regular
expression of the register handler: some split `m.n` with `m` and `n`
nonempty sequences of admitted characters. Since the dot itself is an
admitted character, this holds exactly when every character is
admitted and some dot sits strictly inside the string. -/
def matchDomain (l : List Char) : Bool :=
  allEmailChars l &&
    (List.range l.length).any (fun i =>
      decide (1 ≤ i) && decide (i + 1 < l.length) && (l.getD i ' ' == '.'))

/-- The pieces of a character list between occurrences of a
separator character, in order; one piece when the separator does not
occur. -/
def splitOnChar (sep : Char) : List Char → List (List Char)
  | [] => [[]]
  | c :: rest =>
    if c == sep then [] :: splitOnChar sep rest
    else
      match splitOnChar sep rest with
      | [] => [[c]]
      | h :: t => (c :: h) :: t

/-- The anchored email regular expression the register handler tests,
local at-sign domain dot tld: since the at-sign is excluded from both
character classes, the string must split at a unique at-sign into a
nonempty local part and a matching domain part. -/
def emailRegexTest (s : String) : Bool :=
  match splitOnChar '@' s.data with
  | [a, d] => !(a.isEmpty) && allEmailChars a && matchDomain d
  | _ => false

/-- Lowercasing character by character, as the JavaScript
toLowerCase call behaves on the ASCII filenames at issue. -/
def lowerString (s : String) : String :=
  String.mk (s.data.map Char.toLower)

/-- Modelled from the spec: the credential service digest. The
implementation lives in the external bcryptjs library, not in src/;
the spec describes it as a slow, salted one-way hash with a work
factor. The digest records the cost, the salt and a body determined
by the salt and the plaintext. -/
structure Digest where
  cost : Nat
  salt : String
  body : String
  deriving DecidableEq, Repr

/-- Modelled from the spec: `bcrypt.hashSync(plaintext, cost)` as a
salted one-way hash; the freshly generated random salt is passed
explicitly as an input. -/
def hashSync (plaintext : String) (cost : Nat) (salt : String) : Digest :=
  ⟨cost, salt, salt ++ "$" ++ plaintext⟩

/-- Modelled from the spec: `bcrypt.compareSync(plaintext, digest)`
recomputes the digest body from the digest's recorded salt and the
offered plaintext and compares. -/
def compareSync (plaintext : String) (d : Digest) : Bool :=
  d.body == d.salt ++ "$" ++ plaintext

/-- A stored User document (userSchema): first name, last name,
email, and the password digest, plus the Mongo-assigned id. -/
structure User where
  id : Nat
  first_name : String
  last_name : String
  email : String
  password : Digest
  deriving DecidableEq, Repr

/-- A storage operation performed by the register handler against the
Users collection. -/
inductive UserStorageOp where
  | findUserByEmail (email : String)
  | insertUser (u : User)
  deriving DecidableEq, Repr

/-- `User.findOne` with an email filter: the first stored User whose
email equals the given one. -/
def findOneUser (db : List User) (email : String) : Option User :=
  db.find? (fun u => u.email == email)

/-- An HTTP status code paired with the `message` field of the JSON
response body. -/
structure HttpResponse where
  status : Nat
  message : String
  deriving DecidableEq, Repr

/-- The JSON body of a register request. -/
structure RegisterBody where
  first_name : Option String
  last_name : Option String
  email : Option String
  password : Option String
  deriving DecidableEq, Repr

/-- The register handler. Inputs: the request body, the
salt the library draws for `bcrypt.hashSync`, the id the store will
assign, and the current Users store. Output: the response, the
updated store, and the storage operations performed in order. -/
def registerHandler (body : RegisterBody) (salt : String) (freshId : Nat)
    (db : List User) : HttpResponse × List User × List UserStorageOp :=
  if !(truthy body.first_name) || !(truthy body.last_name)
      || !(truthy body.email) || !(truthy body.password) then
    (⟨400, "Please provide all required fields."⟩, db, [])
  else
    let email := body.email.getD ""
    if !(emailRegexTest email) then
      (⟨400, "Invalid email format."⟩, db, [])
    else
      match findOneUser db email with
      | some _ => (⟨400, "Email already exists"⟩, db, [.findUserByEmail email])
      | none =>
        let hashedPassword := hashSync (body.password.getD "") 8 salt
        let newUser : User :=
          ⟨freshId, body.first_name.getD "", body.last_name.getD "", email, hashedPassword⟩
        (⟨201, "ลงทะเบียนสำเร็จ"⟩, db ++ [newUser],
          [.findUserByEmail email, .insertUser newUser])

/-- The JSON body of a login request. -/
structure LoginBody where
  email : Option String
  password : Option String
  deriving DecidableEq, Repr

/-- The response of the login handler: either an error status with a
message, or the 200 response whose body carries exactly the user's
id, the user's email, the localized message and the success flag. -/
inductive LoginResponse where
  | err (status : Nat) (message : String)
  | ok (id : Nat) (email : String) (message : String) (success : Bool)
  deriving DecidableEq, Repr

/-- The HTTP status of a login response; the `ok` constructor is sent
with status 200. -/
def LoginResponse.status : LoginResponse → Nat
  | .err s _ => s
  | .ok _ _ _ _ => 200

/-- The login handler: requires both fields truthy, looks the user up
by email, verifies the password against the stored digest, and on
success answers with the user's id and email, a localized message and
the success flag. The store is read-only here. -/
def loginHandler (body : LoginBody) (db : List User) : LoginResponse :=
  if !(truthy body.email) || !(truthy body.password) then
    .err 400 "Please provide both email and password."
  else
    match findOneUser db (body.email.getD "") with
    | none => .err 404 "User not found"
    | some user =>
      if !(compareSync (body.password.getD "") user.password) then
        .err 401 "Invalid Password!"
      else
        .ok user.id user.email "เข้าสู่ระบบสำเร็จ" true

/-- The base64 alphabet, in order. -/
def base64Chars : List Char :=
  "ABCDEFGHIJKLMNOPQRSTUVWXYZabcdefghijklmnopqrstuvwxyz0123456789+/".data

/-- The base64 digit for a 6-bit value. -/
def base64Digit (n : Nat) : Char :=
  base64Chars.getD n 'A'

/-- Standard base64 with padding, as `Buffer.toString` with encoding
base64 produces it: bytes are taken three at a time into four digits,
a trailing group of one or two bytes is padded with equal signs. -/
def base64Encode : List Nat → List Char
  | [] => []
  | [a] =>
    [base64Digit (a / 4), base64Digit (a % 4 * 16), '=', '=']
  | [a, b] =>
    [base64Digit (a / 4), base64Digit (a % 4 * 16 + b / 16),
      base64Digit (b % 16 * 4), '=']
  | a :: b :: c :: rest =>
    base64Digit (a / 4) :: base64Digit (a % 4 * 16 + b / 16) ::
      base64Digit (b % 16 * 4 + c / 64) :: base64Digit (c % 64) ::
        base64Encode rest

/-- `getImageUrl(buffer, type)`: null when the buffer is null or the
type is falsy (null or the empty string), otherwise the data URI
built from the MIME type and the base64 encoding of the bytes. -/
def getImageUrl (buffer : Option (List Nat)) (type : Option String) : Option String :=
  match buffer, type with
  | some buf, some t =>
    if t == "" then none
    else some ("data:" ++ t ++ ";base64," ++ String.mk (base64Encode buf))
  | _, _ => none

/-- A stored Profile document (profileSchema): the five required
string fields, the optional image buffers and their MIME types, plus
the Mongo-assigned id. -/
structure Profile where
  id : Nat
  fullName : String
  mobile : String
  email : String
  location : String
  bio : String
  profileImage : Option (List Nat)
  profileImageType : Option String
  coverImage : Option (List Nat)
  coverImageType : Option String
  deriving DecidableEq, Repr

/-- One entry of the list-profiles response: the spread of the stored
document with `profileImage` and `coverImage` overridden by their
materializations; every other stored field, the image type fields
included, is carried over unchanged. -/
structure ProfileView where
  id : Nat
  fullName : String
  mobile : String
  email : String
  location : String
  bio : String
  profileImage : Option String
  profileImageType : Option String
  coverImage : Option String
  coverImageType : Option String
  deriving DecidableEq, Repr

/-- The GET profiles handler: fetches all Profiles, materializes the
two images of each, and answers 200 with the resulting sequence. -/
def profilesHandler (db : List Profile) : Nat × List ProfileView :=
  (200, db.map (fun p =>
    { id := p.id
      fullName := p.fullName
      mobile := p.mobile
      email := p.email
      location := p.location
      bio := p.bio
      profileImage := getImageUrl p.profileImage p.profileImageType
      profileImageType := p.profileImageType
      coverImage := getImageUrl p.coverImage p.coverImageType
      coverImageType := p.coverImageType }))

/-- An uploaded file part as multer's memory storage presents it:
original filename, declared MIME type, and the raw bytes. -/
structure UploadedFile where
  originalname : String
  mimetype : String
  buffer : List Nat
  deriving DecidableEq, Repr

/-- Whether `pat` occurs as a contiguous run inside `l`: some drop
position at which taking `pat.length` elements yields `pat`. -/
def containsSub (pat l : List Char) : Bool :=
  (List.range (l.length + 1)).any (fun i => (l.drop i).take pat.length == pat)

/-- `filetypes.test(s)` for the unanchored regular expression
alternating jpeg, jpg, png, gif: whether the string contains one of
the four words as a substring. -/
def filetypesTest (s : String) : Bool :=
  containsSub "jpeg".data s.data || containsSub "jpg".data s.data
    || containsSub "png".data s.data || containsSub "gif".data s.data

/-- The multer fileFilter: accept exactly when the regular expression
matches both the declared MIME type and the lowercased original
filename. -/
def fileFilterAccepts (f : UploadedFile) : Bool :=
  filetypesTest f.mimetype && filetypesTest (lowerString f.originalname)

/-- The filename extension as the spec's acceptance policy reads it:
the part of the lowercased filename after its last dot, absent when
the name has no dot. -/
def specExtension (name : String) : Option String :=
  match (splitOnChar '.' (lowerString name).data).reverse with
  | [] => none
  | [_] => none
  | ext :: _ => some (String.mk ext)

/-- The acceptance policy as the spec words it, for comparison with
`fileFilterAccepts`: both the declared MIME type and the filename
extension are members of the set of the four image type names, the
extension compared case-insensitively. The MIME membership is read
generously, allowing the usual image/ prefix. -/
def specFileAccept (f : UploadedFile) : Bool :=
  (["jpeg", "jpg", "png", "gif"].any (fun t =>
    f.mimetype == t || f.mimetype == "image/" ++ t)) &&
  (match specExtension f.originalname with
   | some ext => ["jpeg", "jpg", "png", "gif"].contains ext
   | none => false)

/-- The JSON fields of an add-profile request body. -/
structure AddProfileBody where
  fullName : Option String
  mobile : Option String
  email : Option String
  location : Option String
  bio : Option String
  deriving DecidableEq, Repr

/-- An add-profile request: the body fields together with the two
optional named file parts the upload middleware may receive. -/
structure AddProfileRequest where
  body : AddProfileBody
  profileImageFile : Option UploadedFile
  coverImageFile : Option UploadedFile
  deriving DecidableEq, Repr

/-- Whether upload intake passes the request through to the handler:
each file part that is present must be accepted by the fileFilter. -/
def intakePasses (req : AddProfileRequest) : Bool :=
  (match req.profileImageFile with
   | some f => fileFilterAccepts f
   | none => true) &&
  (match req.coverImageFile with
   | some f => fileFilterAccepts f
   | none => true)

/-- The response of the add-profile route: an error status with a
message, or the 201 response carrying the message and the new
profile's id. -/
inductive AddProfileResponse where
  | err (status : Nat) (message : String)
  | created (message : String) (profileId : Nat)
  deriving DecidableEq, Repr

/-- The HTTP status of an add-profile response; `created` is sent
with status 201. -/
def AddProfileResponse.status : AddProfileResponse → Nat
  | .err s _ => s
  | .created _ _ => 201

/-- The add-profile route: the upload middleware runs first and, on a
rejected file, aborts the request before the handler runs, so nothing
is persisted. Modelled from the spec: the HTTP status of that abort
is 400 — the mapping of the fileFilter's error to a status happens in
the express/multer dispatch code, which is not part of src/. When
intake passes, the handler requires the five body fields truthy (400
otherwise), then saves the new Profile with the buffers and MIME
types of whichever files were uploaded and answers 201. -/
def addProfileRoute (req : AddProfileRequest) (freshId : Nat)
    (db : List Profile) : AddProfileResponse × List Profile :=
  if !(intakePasses req) then
    (.err 400 "Error: File upload only supports the following filetypes - jpeg, jpg, png, gif", db)
  else if !(truthy req.body.fullName) || !(truthy req.body.mobile)
      || !(truthy req.body.email) || !(truthy req.body.location)
      || !(truthy req.body.bio) then
    (.err 400 "Please provide all required fields.", db)
  else
    let newProfile : Profile :=
      { id := freshId
        fullName := req.body.fullName.getD ""
        mobile := req.body.mobile.getD ""
        email := req.body.email.getD ""
        location := req.body.location.getD ""
        bio := req.body.bio.getD ""
        profileImage := req.profileImageFile.map (fun f => f.buffer)
        profileImageType := req.profileImageFile.map (fun f => f.mimetype)
        coverImage := req.coverImageFile.map (fun f => f.buffer)
        coverImageType := req.coverImageFile.map (fun f => f.mimetype) }
    (.created "Profile created successfully!" newProfile.id, db ++ [newProfile])

/-! ## Helper lemmas -/

/-- Appending on the left is cancellative for strings. -/
theorem string_append_cancel_left (a b c : String) (h : a ++ b = a ++ c) : b = c := by
  apply String.ext
  have hd := congrArg String.data h
  rw [String.data_append, String.data_append] at hd
  exact List.append_cancel_left hd

/-- `containsSub` decides exactly the existence of a substring
decomposition. -/
theorem containsSub_iff (pat l : List Char) :
    containsSub pat l = true ↔ ∃ x y, l = x ++ pat ++ y := by
  unfold containsSub
  rw [List.any_eq_true]
  constructor
  · rintro ⟨i, -, hit⟩
    rw [beq_iff_eq] at hit
    refine ⟨l.take i, l.drop (i + pat.length), ?_⟩
    conv_lhs => rw [← List.take_append_drop i l,
      ← List.take_append_drop pat.length (l.drop i)]
    rw [hit, List.drop_drop, ← List.append_assoc]
  · rintro ⟨x, y, rfl⟩
    refine ⟨x.length, List.mem_range.mpr ?_, ?_⟩
    · simp [List.length_append]
      omega
    · rw [beq_iff_eq, List.append_assoc, List.drop_left, List.take_left]

/-- `User.findOne` by email returns nothing exactly when no stored
user has that email. -/
theorem findOneUser_eq_none (db : List User) (e : String) :
    findOneUser db e = none ↔ ∀ u ∈ db, u.email ≠ e := by
  unfold findOneUser
  rw [List.find?_eq_none]
  constructor
  · intro h u hu
    have := h u hu
    simpa using this
  · intro h u hu
    simpa using h u hu

/-- When some stored user has the email, `User.findOne` returns a
user. -/
theorem findOneUser_mem (db : List User) (e : String)
    (h : ∃ u ∈ db, u.email = e) : ∃ u, findOneUser db e = some u := by
  have : (List.find? (fun u => u.email == e) db).isSome = true := by
    rw [List.find?_isSome]
    obtain ⟨u, hu, he⟩ := h
    exact ⟨u, hu, by simpa using he⟩
  exact Option.isSome_iff_exists.mp this

/-! ## Claim theorems -/

/-- C6: the credential service satisfies the verify/hash round trip:
verifying a non-empty password against its own cost-8 salted digest
succeeds, verifying any different password against that digest fails,
and the digest records cost factor 8. -/
theorem credential_verify_roundtrip :
    (∀ p salt, p ≠ "" → compareSync p (hashSync p 8 salt) = true) ∧
    (∀ p p2 salt, p2 ≠ p → compareSync p2 (hashSync p 8 salt) = false) ∧
    (∀ p salt, (hashSync p 8 salt).cost = 8) := by
  refine ⟨?_, ?_, fun p salt => rfl⟩
  · intro p salt _
    simp [compareSync, hashSync]
  · intro p p2 salt hne
    simp only [compareSync, hashSync]
    rw [beq_eq_false_iff_ne]
    intro h
    exact hne (string_append_cancel_left _ _ _ h).symm

/-- C6 witness: the round trip evaluated at the password and a
different offer. -/
theorem credential_verify_roundtrip_witness :
    "secret" ≠ "" ∧ compareSync "secret" (hashSync "secret" 8 "s0") = true ∧
    "other" ≠ "secret" ∧ compareSync "other" (hashSync "secret" 8 "s0") = false :=
  ⟨by decide, credential_verify_roundtrip.1 "secret" "s0" (by decide),
   by decide, credential_verify_roundtrip.2.1 "secret" "other" "s0" (by decide)⟩

/-- C9: `getImageUrl` returns null whenever either argument is
absent, including the mismatched cases of bytes without a MIME type
and a MIME type without bytes. -/
theorem getImageUrl_absent_null :
    (∀ t, getImageUrl none t = none) ∧
    (∀ buf, getImageUrl buf none = none) ∧
    (∀ buf, getImageUrl (some buf) none = none) ∧
    (∀ t, getImageUrl none (some t) = none) := by
  refine ⟨fun t => ?_, fun buf => ?_, fun buf => rfl, fun t => rfl⟩
  · cases t <;> rfl
  · cases buf <;> rfl

/-- C3: a register request with a missing (or empty, hence falsy)
required field is answered 400 with the store untouched and no
storage operation performed; likewise when all fields are present but
the email fails the format regular expression, and the string
not-an-email fails it. -/
theorem register_validation_before_storage :
    (∀ body salt freshId db,
        (truthy body.first_name = false ∨ truthy body.last_name = false ∨
         truthy body.email = false ∨ truthy body.password = false) →
        registerHandler body salt freshId db =
          (⟨400, "Please provide all required fields."⟩, db, [])) ∧
    (∀ body salt freshId db,
        truthy body.first_name = true → truthy body.last_name = true →
        truthy body.email = true → truthy body.password = true →
        emailRegexTest (body.email.getD "") = false →
        registerHandler body salt freshId db =
          (⟨400, "Invalid email format."⟩, db, [])) ∧
    emailRegexTest "not-an-email" = false := by
  refine ⟨?_, ?_, by decide⟩
  · intro body salt freshId db h
    rcases h with h | h | h | h <;> simp [registerHandler, h]
  · intro body salt freshId db h1 h2 h3 h4 hre
    simp [registerHandler, h1, h2, h3, h4, hre]

/-- C3 witness: a body missing the password, and a full body whose
email is not-an-email, both answered 400 with no storage access. -/
theorem register_validation_before_storage_witness :
    registerHandler ⟨some "A", some "B", some "a@b.c", none⟩ "s0" 1 [] =
      (⟨400, "Please provide all required fields."⟩, [], []) ∧
    registerHandler ⟨some "A", some "B", some "not-an-email", some "pw"⟩ "s0" 1 [] =
      (⟨400, "Invalid email format."⟩, [], []) :=
  ⟨register_validation_before_storage.1 _ "s0" 1 [] (Or.inr (Or.inr (Or.inr rfl))),
   register_validation_before_storage.2.1 _ "s0" 1 [] rfl rfl rfl rfl (by decide)⟩

/-- C2: login answers 400 when either field is falsy, 404 when no
stored user has the email, 401 when the found user's digest does not
verify the offered password, and otherwise 200 with exactly the
user's id, the user's email, the localized message and the success
flag. -/
theorem login_case_analysis :
    (∀ body db, (truthy body.email = false ∨ truthy body.password = false) →
        loginHandler body db = .err 400 "Please provide both email and password.") ∧
    (∀ body db, truthy body.email = true → truthy body.password = true →
        (∀ u ∈ db, u.email ≠ body.email.getD "") →
        loginHandler body db = .err 404 "User not found") ∧
    (∀ body db u, truthy body.email = true → truthy body.password = true →
        findOneUser db (body.email.getD "") = some u →
        compareSync (body.password.getD "") u.password = false →
        loginHandler body db = .err 401 "Invalid Password!") ∧
    (∀ body db u, truthy body.email = true → truthy body.password = true →
        findOneUser db (body.email.getD "") = some u →
        compareSync (body.password.getD "") u.password = true →
        loginHandler body db = .ok u.id u.email "เข้าสู่ระบบสำเร็จ" true) := by
  refine ⟨?_, ?_, ?_, ?_⟩
  · intro body db h
    rcases h with h | h <;> simp [loginHandler, h]
  · intro body db h1 h2 hnone
    have hf : findOneUser db (body.email.getD "") = none :=
      (findOneUser_eq_none db _).mpr hnone
    simp [loginHandler, h1, h2, hf]
  · intro body db u h1 h2 hf hcmp
    simp [loginHandler, h1, h2, hf, hcmp]
  · intro body db u h1 h2 hf hcmp
    simp [loginHandler, h1, h2, hf, hcmp]

/-- C2 witness: the four login outcomes at concrete requests against
a one-user store. -/
theorem login_case_analysis_witness :
    loginHandler ⟨none, some "pw"⟩ [] =
      .err 400 "Please provide both email and password." ∧
    loginHandler ⟨some "a@b.c", some "pw"⟩ [] = .err 404 "User not found" ∧
    loginHandler ⟨some "a@b.c", some "bad"⟩
      [⟨7, "A", "B", "a@b.c", hashSync "pw" 8 "s0"⟩] = .err 401 "Invalid Password!" ∧
    loginHandler ⟨some "a@b.c", some "pw"⟩
      [⟨7, "A", "B", "a@b.c", hashSync "pw" 8 "s0"⟩] =
      .ok 7 "a@b.c" "เข้าสู่ระบบสำเร็จ" true :=
  ⟨login_case_analysis.1 _ [] (Or.inl rfl),
   login_case_analysis.2.1 _ [] rfl rfl (by decide),
   login_case_analysis.2.2.1 _ _ ⟨7, "A", "B", "a@b.c", hashSync "pw" 8 "s0"⟩
     rfl rfl (by decide) (by decide),
   login_case_analysis.2.2.2 _ _ ⟨7, "A", "B", "a@b.c", hashSync "pw" 8 "s0"⟩
     rfl rfl (by decide) (by decide)⟩

/-- C1: a valid register request with a fresh email is answered 201
and appends exactly the new user, whose digest hashes the password at
cost 8; a register request with the same present fields whose email
some stored user already has is answered 400 Email already exists
with the store unchanged; and whenever some stored user already has
the request's email, the handler never performs an insertUser
operation and leaves the store unchanged, whatever the body. -/
theorem register_unique_email :
    (∀ body salt freshId db e,
        body.email = some e →
        truthy body.first_name = true → truthy body.last_name = true →
        truthy body.email = true → truthy body.password = true →
        emailRegexTest e = true →
        (∀ u ∈ db, u.email ≠ e) →
        registerHandler body salt freshId db =
          (⟨201, "ลงทะเบียนสำเร็จ"⟩,
           db ++ [⟨freshId, body.first_name.getD "", body.last_name.getD "", e,
                   hashSync (body.password.getD "") 8 salt⟩],
           [.findUserByEmail e,
            .insertUser ⟨freshId, body.first_name.getD "", body.last_name.getD "", e,
                         hashSync (body.password.getD "") 8 salt⟩])) ∧
    (∀ body salt freshId db e,
        body.email = some e →
        truthy body.first_name = true → truthy body.last_name = true →
        truthy body.email = true → truthy body.password = true →
        emailRegexTest e = true →
        (∃ u ∈ db, u.email = e) →
        registerHandler body salt freshId db =
          (⟨400, "Email already exists"⟩, db, [.findUserByEmail e])) ∧
    (∀ body salt freshId db,
        (∃ u ∈ db, u.email = body.email.getD "") →
        (registerHandler body salt freshId db).2.1 = db ∧
        ∀ w, UserStorageOp.insertUser w ∉ (registerHandler body salt freshId db).2.2) := by
  refine ⟨?_, ?_, ?_⟩
  · intro body salt freshId db e he h1 h2 h3 h4 hre hfresh
    have hf : findOneUser db e = none := (findOneUser_eq_none db e).mpr hfresh
    rw [he] at h3
    simp [registerHandler, he, h1, h2, h3, h4, hre, hf]
  · intro body salt freshId db e he h1 h2 h3 h4 hre hdup
    obtain ⟨u, hu⟩ := findOneUser_mem db e hdup
    rw [he] at h3
    simp [registerHandler, he, h1, h2, h3, h4, hre, hu]
  · intro body salt freshId db hdup
    obtain ⟨u, hu⟩ := findOneUser_mem db _ hdup
    by_cases h1 : (!truthy body.first_name || !truthy body.last_name
        || !truthy body.email || !truthy body.password) = true
    · simp [registerHandler, h1]
    · rw [Bool.not_eq_true] at h1
      by_cases h2 : emailRegexTest (body.email.getD "") = true
      · simp [registerHandler, h1, h2, hu]
      · rw [Bool.not_eq_true] at h2
        simp [registerHandler, h1, h2]

/-- C1 witness: registering a fresh user succeeds once, and a second
registration under the same email against the resulting store is
answered 400 Email already exists and persists nothing. -/
theorem register_unique_email_witness :
    registerHandler ⟨some "A", some "B", some "a@b.c", some "pw"⟩ "s1" 1 [] =
      (⟨201, "ลงทะเบียนสำเร็จ"⟩,
       [⟨1, "A", "B", "a@b.c", hashSync "pw" 8 "s1"⟩],
       [.findUserByEmail "a@b.c",
        .insertUser ⟨1, "A", "B", "a@b.c", hashSync "pw" 8 "s1"⟩]) ∧
    registerHandler ⟨some "C", some "D", some "a@b.c", some "pw2"⟩ "s2" 2
        [⟨1, "A", "B", "a@b.c", hashSync "pw" 8 "s1"⟩] =
      (⟨400, "Email already exists"⟩,
       [⟨1, "A", "B", "a@b.c", hashSync "pw" 8 "s1"⟩],
       [.findUserByEmail "a@b.c"]) :=
  ⟨register_unique_email.1 _ "s1" 1 [] "a@b.c" rfl rfl rfl rfl rfl (by decide)
     (by decide),
   register_unique_email.2.1 _ "s2" 2 _ "a@b.c" rfl rfl rfl rfl rfl (by decide)
     ⟨⟨1, "A", "B", "a@b.c", hashSync "pw" 8 "s1"⟩, List.mem_singleton.mpr rfl, rfl⟩⟩

/-- C8: an add-profile request that passes upload intake but has a
missing (or empty, hence falsy) required body field is answered 400
with the Profiles store unchanged. -/
theorem addProfile_missing_field :
    ∀ req freshId db, intakePasses req = true →
      (truthy req.body.fullName = false ∨ truthy req.body.mobile = false ∨
       truthy req.body.email = false ∨ truthy req.body.location = false ∨
       truthy req.body.bio = false) →
      addProfileRoute req freshId db =
        (.err 400 "Please provide all required fields.", db) := by
  intro req freshId db hpass h
  rcases h with h | h | h | h | h <;> simp [addProfileRoute, hpass, h]

/-- C8 witness: a request with every field but bio, and no files, is
answered 400 against an empty store which stays empty. -/
theorem addProfile_missing_field_witness :
    intakePasses ⟨⟨some "N", some "0123", some "e@x.c", some "L", none⟩, none, none⟩ = true ∧
    addProfileRoute ⟨⟨some "N", some "0123", some "e@x.c", some "L", none⟩, none, none⟩ 1 [] =
      (.err 400 "Please provide all required fields.", []) :=
  ⟨rfl, addProfile_missing_field _ 1 []
    rfl (Or.inr (Or.inr (Or.inr (Or.inr rfl))))⟩

/-- C5: an add-profile request carrying a file part the fileFilter
rejects is aborted with status 400 and the Profiles store is
unchanged. -/
theorem addProfile_rejected_file_aborts :
    ∀ req freshId db,
      ((∃ f, req.profileImageFile = some f ∧ fileFilterAccepts f = false) ∨
       (∃ f, req.coverImageFile = some f ∧ fileFilterAccepts f = false)) →
      (addProfileRoute req freshId db).1.status = 400 ∧
      (addProfileRoute req freshId db).2 = db := by
  intro req freshId db h
  have hfail : intakePasses req = false := by
    rcases h with ⟨f, hf, hacc⟩ | ⟨f, hf, hacc⟩ <;>
      simp [intakePasses, hf, hacc]
  simp [addProfileRoute, hfail, AddProfileResponse.status]

/-- C5 witness: an otherwise complete request carrying a text file is
aborted with 400 and persists no profile. -/
theorem addProfile_rejected_file_aborts_witness :
    (addProfileRoute ⟨⟨some "N", some "0123", some "e@x.c", some "L", some "bio"⟩,
        some ⟨"x.txt", "text/plain", [104, 105]⟩, none⟩ 1 []).1.status = 400 ∧
    (addProfileRoute ⟨⟨some "N", some "0123", some "e@x.c", some "L", some "bio"⟩,
        some ⟨"x.txt", "text/plain", [104, 105]⟩, none⟩ 1 []).2 = [] :=
  addProfile_rejected_file_aborts _ 1 []
    (Or.inl ⟨⟨"x.txt", "text/plain", [104, 105]⟩, rfl, by decide⟩)

/-- Every materialized image is either null or the data URI of the
stored MIME type. -/
theorem getImageUrl_none_or_data (buf : Option (List Nat)) (t : Option String) :
    getImageUrl buf t = none ∨ ∃ ty payload, t = some ty ∧ ty ≠ "" ∧
      getImageUrl buf t = some ("data:" ++ ty ++ ";base64," ++ payload) := by
  match buf, t with
  | none, t => exact Or.inl (by cases t <;> rfl)
  | some b, none => exact Or.inl rfl
  | some b, some ty =>
    by_cases h : ty = ""
    · exact Or.inl (by simp [getImageUrl, h])
    · exact Or.inr ⟨ty, String.mk (base64Encode b), rfl, h,
        by simp [getImageUrl, beq_eq_false_iff_ne.mpr h]⟩

/-- C7: `getImageUrl` on stored bytes and a stored MIME type is
exactly the data URI of that MIME type and the base64 encoding of the
bytes; it is null when either input is absent, never a placeholder;
hence every entry of the profiles listing has image fields that are
null or begin with data: followed by the entry's own MIME type. -/
theorem getImageUrl_data_uri :
    (∀ buf t, t ≠ "" → getImageUrl (some buf) (some t) =
        some ("data:" ++ t ++ ";base64," ++ String.mk (base64Encode buf))) ∧
    (∀ t, getImageUrl none t = none) ∧
    (∀ buf, getImageUrl buf none = none) ∧
    (∀ db v, v ∈ (profilesHandler db).2 →
      (v.profileImage = none ∨ ∃ t payload, v.profileImageType = some t ∧ t ≠ "" ∧
          v.profileImage = some ("data:" ++ t ++ ";base64," ++ payload)) ∧
      (v.coverImage = none ∨ ∃ t payload, v.coverImageType = some t ∧ t ≠ "" ∧
          v.coverImage = some ("data:" ++ t ++ ";base64," ++ payload))) := by
  refine ⟨?_, fun t => by cases t <;> rfl, fun buf => by cases buf <;> rfl, ?_⟩
  · intro buf t ht
    simp [getImageUrl, beq_eq_false_iff_ne.mpr ht]
  · intro db v hv
    simp only [profilesHandler, List.mem_map] at hv
    obtain ⟨p, -, rfl⟩ := hv
    exact ⟨getImageUrl_none_or_data p.profileImage p.profileImageType,
      getImageUrl_none_or_data p.coverImage p.coverImageType⟩

/-- C7 witness: the data URI of three stored bytes under image/png,
evaluated to its literal base64 form. -/
theorem getImageUrl_data_uri_witness :
    getImageUrl (some [77, 97, 110]) (some "image/png") =
      some ("data:" ++ "image/png" ++ ";base64," ++
        String.mk (base64Encode [77, 97, 110])) ∧
    "data:" ++ "image/png" ++ ";base64," ++ String.mk (base64Encode [77, 97, 110]) =
      "data:image/png;base64,TWFu" :=
  ⟨getImageUrl_data_uri.1 [77, 97, 110] "image/png" (by decide), by decide⟩

/-- C10: the profiles listing has one entry per stored Profile, in
store order, and each entry carries every stored field unchanged
except profileImage and coverImage, which are replaced by the
materializations of the stored bytes and MIME types. -/
theorem profiles_listing_frame :
    ∀ db : List Profile,
      (profilesHandler db).1 = 200 ∧
      (profilesHandler db).2.length = db.length ∧
      ∀ i (h : i < db.length), ∃ v,
        (profilesHandler db).2[i]? = some v ∧
        v.id = (db.get ⟨i, h⟩).id ∧
        v.fullName = (db.get ⟨i, h⟩).fullName ∧
        v.mobile = (db.get ⟨i, h⟩).mobile ∧
        v.email = (db.get ⟨i, h⟩).email ∧
        v.location = (db.get ⟨i, h⟩).location ∧
        v.bio = (db.get ⟨i, h⟩).bio ∧
        v.profileImageType = (db.get ⟨i, h⟩).profileImageType ∧
        v.coverImageType = (db.get ⟨i, h⟩).coverImageType ∧
        v.profileImage =
          getImageUrl (db.get ⟨i, h⟩).profileImage (db.get ⟨i, h⟩).profileImageType ∧
        v.coverImage =
          getImageUrl (db.get ⟨i, h⟩).coverImage (db.get ⟨i, h⟩).coverImageType := by
  intro db
  refine ⟨rfl, by simp [profilesHandler], ?_⟩
  intro i h
  have hlen : i < (profilesHandler db).2.length := by
    simpa [profilesHandler] using h
  refine ⟨(profilesHandler db).2.get ⟨i, hlen⟩, List.getElem?_eq_getElem hlen,
    ?_, ?_, ?_, ?_, ?_, ?_, ?_, ?_, ?_, ?_⟩ <;>
    simp [profilesHandler, List.getElem_map]

/-- C10 witness: the listing of a one-profile store evaluated at its
single index. -/
theorem profiles_listing_frame_witness :
    ∃ v, (profilesHandler [⟨5, "N", "0123", "e@x.c", "L", "bio",
        some [77, 97, 110], some "image/png", none, none⟩]).2[0]? = some v ∧
      v.id = 5 ∧ v.fullName = "N" ∧ v.mobile = "0123" ∧ v.email = "e@x.c" ∧
      v.location = "L" ∧ v.bio = "bio" ∧
      v.profileImageType = some "image/png" ∧ v.coverImageType = none ∧
      v.profileImage = getImageUrl (some [77, 97, 110]) (some "image/png") ∧
      v.coverImage = getImageUrl none none :=
  (profiles_listing_frame [⟨5, "N", "0123", "e@x.c", "L", "bio",
      some [77, 97, 110], some "image/png", none, none⟩]).2.2 0 (by decide)

/-- The spec's reading of a match of the filetype regular
expression: the string contains one of the four image type names. -/
def ContainsOneOf (s : String) : Prop :=
  ∃ pat ∈ ["jpeg", "jpg", "png", "gif"], ∃ x y, s.data = x ++ pat.data ++ y

/-- The filetype test decides exactly the containment of one of the
four image type names as a substring. -/
theorem filetypesTest_iff (s : String) :
    filetypesTest s = true ↔ ContainsOneOf s := by
  simp only [filetypesTest, Bool.or_eq_true, containsSub_iff, ContainsOneOf]
  constructor
  · rintro (((h | h) | h) | h)
    · exact ⟨"jpeg", by simp, h⟩
    · exact ⟨"jpg", by simp, h⟩
    · exact ⟨"png", by simp, h⟩
    · exact ⟨"gif", by simp, h⟩
  · rintro ⟨pat, hpat, h⟩
    simp only [List.mem_cons, List.not_mem_nil, or_false] at hpat
    rcases hpat with rfl | rfl | rfl | rfl
    · exact Or.inl (Or.inl (Or.inl h))
    · exact Or.inl (Or.inl (Or.inr h))
    · exact Or.inl (Or.inr h)
    · exact Or.inr h

/-- C4 counterexample: the fileFilter accepts the file named
x.png.txt with MIME image/png, although its filename extension txt is
not one of the four allowed type names, so the claimed
extension-membership policy rejects it. -/
theorem fileFilter_extension_counterexample :
    fileFilterAccepts ⟨"x.png.txt", "image/png", []⟩ = true ∧
    specExtension "x.png.txt" = some "txt" ∧
    specFileAccept ⟨"x.png.txt", "image/png", []⟩ = false := by
  decide

/-- C4 amended: a file part is accepted exactly when its declared
MIME string contains one of jpeg, jpg, png, gif as a substring and
its lowercased full filename contains one of them as a substring —
the extension alone is not isolated; in particular x.txt with
text/plain is rejected and x.jpg with image/jpeg is accepted whatever
the byte content. -/
theorem fileFilter_substring_policy :
    (∀ f : UploadedFile, fileFilterAccepts f = true ↔
        ContainsOneOf f.mimetype ∧ ContainsOneOf (lowerString f.originalname)) ∧
    (∀ content, fileFilterAccepts ⟨"x.txt", "text/plain", content⟩ = false) ∧
    (∀ content, fileFilterAccepts ⟨"x.jpg", "image/jpeg", content⟩ = true) := by
  refine ⟨?_, fun content => rfl, fun content => rfl⟩
  intro f
  simp only [fileFilterAccepts, Bool.and_eq_true, filetypesTest_iff]

/-- C4 amended witness: the substring policy applied to the accepted
file x.jpg with MIME image/jpeg. -/
theorem fileFilter_substring_policy_witness :
    ContainsOneOf "image/jpeg" ∧ ContainsOneOf (lowerString "x.jpg") ∧
    fileFilterAccepts ⟨"x.jpg", "image/jpeg", [1, 2, 3]⟩ = true :=
  ⟨⟨"jpeg", by simp, "image/".data, [], by decide⟩,
   ⟨"jpg", by simp, "x.".data, [], by decide⟩,
   (fileFilter_substring_policy.1 ⟨"x.jpg", "image/jpeg", [1, 2, 3]⟩).mpr
     ⟨⟨"jpeg", by simp, "image/".data, [], by decide⟩,
      ⟨"jpg", by simp, "x.".data, [], by decide⟩⟩⟩

end BackendProfile
